import Mathlib

/-!
Verification development for the whoop-mcp repository.

Shallow embedding of the core credential / dispatch / pagination logic:
  * `utils.py`            : `isoformat_utc`, `days_ago`, `start_of_day`, `collect_paginated`
  * `whoop_mcp_server.py` : `WhoopTokenVerifier.verify_token`, `WhoopClient.get`,
                            `_bearer_for_upstream`, `_dispatch_get`, `get_activities`,
                            the month branch of `get_trends`
  * `whoop_oauth_server.py` : the `/refresh_token` route

Conventions of the embedding:
  * JSON values are modelled by the inductive `Json`; Python dicts are ordered
    association lists with unique keys (as Python dicts are insertion ordered).
  * Python truthiness is modelled by `pyTruthy`, `x or y` by `pyOr`.
  * Instants are seconds since the Unix epoch (`Int`); `time.time()` values in the
    token verifier are modelled as rationals (`Rat`).  Sub-second precision of
    `datetime` is not modelled (no claim depends on it).
  * HTTP exchanges are modelled by a pure environment `Env` mapping an upstream
    call (path, wire query parameters, bearer header) to a response; every
    function that performs upstream calls also returns the list of calls it made.
  * Response bodies are modelled at the granularity the code observes through
    `httpx`: empty, bytes that parse as a JSON value, or non-empty bytes that do
    not parse (on which `response.json()` raises).
  * The unbounded `while True` loop of `collect_paginated` is modelled with
    explicit fuel: a `none` result means the loop was still running after
    `fuel` iterations (one fetch per iteration).
-/

/-- JSON values (Python objects produced by `response.json()`). -/
inductive Json where
  | null : Json
  | bool : Bool → Json
  | num : Int → Json
  | str : String → Json
  | arr : List Json → Json
  | obj : List (String × Json) → Json

/-- Association-list lookup: Python `dict.__getitem__` / membership basis. -/
def objGet : List (String × Json) → String → Option Json
  | [], _ => none
  | (k, v) :: rest, key => if k = key then some v else objGet rest key

/-- Python `d[key] = v` on a dict: replaces in place, else appends (insertion order). -/
def objSet : List (String × Json) → String → Json → List (String × Json)
  | [], key, v => [(key, v)]
  | (k, w) :: rest, key, v =>
    if k = key then (k, v) :: rest else (k, w) :: objSet rest key v

/-- Python `d.pop(key)`'s effect on the dict (keys are unique in a dict). -/
def objRemove : List (String × Json) → String → List (String × Json)
  | [], _ => []
  | (k, w) :: rest, key => if k = key then rest else (k, w) :: objRemove rest key

/-- Python truthiness of a JSON value. -/
def pyTruthy : Json → Bool
  | Json.null => false
  | Json.bool b => b
  | Json.num n => n != 0
  | Json.str s => s ≠ ""
  | Json.arr xs => ¬ xs.isEmpty
  | Json.obj fs => ¬ fs.isEmpty

/-- Python `a or b` over two `dict.get` results (`none` models `None`). -/
def pyOr (a b : Option Json) : Option Json :=
  match a with
  | some j => if pyTruthy j then some j else b
  | none => b

/-- Truthiness of an optional value (`None` is falsy). -/
def pyTruthyOpt : Option Json → Bool
  | some j => pyTruthy j
  | none => false

/-- `data.get(key)` where `data` is the JSON value returned by a fetch.  The code
only ever applies this to dict responses; a non-dict value (on which Python would
raise `AttributeError`) is mapped to `none`, a region unreachable under the
hypotheses of every theorem below. -/
def jsonGet : Json → String → Option Json
  | Json.obj fs, key => objGet fs key
  | _, _ => none

/-! ## Time utilities (`utils.py`) -/

/-- Civil date from days since the Unix epoch (proleptic Gregorian calendar),
returning (year, month, day).  Used only to render timestamps. -/
def civilFromDays (z0 : Int) : Int × Nat × Nat :=
  let z : Int := z0 + 719468
  let era : Int := z.fdiv 146097
  let doe : Nat := (z - era * 146097).toNat
  let yoe : Nat := (doe - doe / 1460 + doe / 36524 - doe / 146096) / 365
  let doy : Nat := doe - (365 * yoe + yoe / 4 - yoe / 100)
  let mp : Nat := (5 * doy + 2) / 153
  let d : Nat := doy - (153 * mp + 2) / 5 + 1
  let m : Nat := if mp < 10 then mp + 3 else mp - 9
  ((yoe : Int) + era * 400 + (if m ≤ 2 then 1 else 0), m, d)

/-- Two-decimal-digit rendering, Python `f"{n:02d}"` for `0 ≤ n ≤ 99`. -/
def two_digits (n : Nat) : String :=
  String.mk [Nat.digitChar (n / 10), Nat.digitChar (n % 10)]

/-- Four-decimal-digit rendering of a year in `[1000, 9999]` (Python `str(y)`
and `datetime`'s `%Y` agree with this on that range). -/
def year_digits (y : Nat) : String :=
  String.mk [Nat.digitChar (y / 1000), Nat.digitChar (y / 100 % 10),
             Nat.digitChar (y / 10 % 10), Nat.digitChar (y % 10)]

/-- `datetime.isoformat()` without a zone suffix (second resolution).
Instant = seconds since the epoch. -/
def isoformat_base (t : Int) : String :=
  let sod : Nat := (t.fmod 86400).toNat
  let c := civilFromDays (t.fdiv 86400)
  year_digits c.1.toNat ++ "-" ++ two_digits c.2.1 ++ "-" ++ two_digits c.2.2 ++
    "T" ++ two_digits (sod / 3600) ++ ":" ++ two_digits (sod % 3600 / 60) ++
    ":" ++ two_digits (sod % 60)

/-- `utils.isoformat_utc`: render an instant as an ISO 8601 UTC string with a
trailing `Z` (the code formats an aware UTC datetime and replaces `+00:00`
with `Z`). -/
def isoformat_utc (t : Int) : String :=
  isoformat_base t ++ "Z"

/-- `utils.days_ago`: `isoformat_utc(now - timedelta(days=days))`; `now` is the
current instant, passed explicitly in the embedding. -/
def days_ago (now : Int) (days : Int) : String :=
  isoformat_utc (now - days * 86400)

/-- `utils.start_of_day`: UTC midnight of the current day minus `days_back` days. -/
def start_of_day (now : Int) (days_back : Int) : String :=
  isoformat_utc ((now.fdiv 86400 - days_back) * 86400)

/-! ## HTTP model and upstream client (`WhoopClient.get`) -/

/-- An HTTP response body as observed through `httpx` / `requests`:
empty bytes, bytes that parse as a JSON value, or non-empty bytes on which
`response.json()` raises a decode error. -/
inductive Body where
  | empty : Body
  | jsonVal : Json → Body
  | malformed : Body

/-- An upstream HTTP response (status, headers, body, and `response.text`). -/
structure HttpResp where
  status : Nat
  headers : List (String × String)
  body : Body
  text : String

/-- One upstream GET as it leaves the client: path, wire query parameters
(after the `next_token` → `nextToken` rename), bearer token of the
`Authorization` header. -/
structure UpCall where
  path : String
  params : List (String × Json)
  bearer : String

/-- The upstream vendor, as a pure environment. -/
structure Env where
  respond : UpCall → HttpResp

/-- ASCII lower-casing of one character (header names are ASCII). -/
def lowerChar (c : Char) : Char :=
  if 'A' ≤ c ∧ c ≤ 'Z' then Char.ofNat (c.toNat + 32) else c

/-- Case-insensitive header lookup (httpx/requests headers are
case-insensitive mappings). -/
def hget : List (String × String) → String → Option String
  | [], _ => none
  | (k, v) :: rest, key =>
    if k.data.map lowerChar = key.data.map lowerChar then some v else hget rest key

/-- Python `a or b` for an optional string against a default
(`None` and `""` are falsy). -/
def pyOrStr (a : Option String) (b : String) : String :=
  match a with
  | some s => if s = "" then b else s
  | none => b

/-- Errors raised by `WhoopClient.get`. -/
inductive GetError where
  | rateLimited : String → GetError
  | httpStatus : Nat → GetError
  | jsonDecode : GetError

/-- The message of the `RuntimeError` raised on HTTP 429. -/
def rate_limit_msg (reset : Option String) : String :=
  "WHOOP rate limit hit; retry after " ++ pyOrStr reset "a short delay" ++ " seconds"

/-- Whether `needle` occurs as a contiguous run inside the haystack. -/
def infixCheck (needle : List Char) : List Char → Bool
  | [] => needle.isEmpty
  | c :: rest => List.isPrefixOf needle (c :: rest) || infixCheck needle rest

/-- `"application/json" in response.headers.get("content-type", "")`. -/
def contentTypeJson (headers : List (String × String)) : Bool :=
  infixCheck "application/json".data (pyOrStr (hget headers "content-type") "").data

/-- `response.content` truthiness. -/
def bodyNonempty : Body → Bool
  | Body.empty => false
  | _ => true

/-- The `next_token` → `nextToken` rename performed before sending:
`if "next_token" in query and query["next_token"] is not None`. -/
def wire_params (params : List (String × Json)) : List (String × Json) :=
  match objGet params "next_token" with
  | some Json.null => params
  | some t => objSet (objRemove params "next_token") "nextToken" t
  | none => params

/-- `WhoopClient.get`: one authenticated GET.  429 maps to a rate-limit error
carrying the `X-RateLimit-Reset` hint; any other non-2xx status raises
(`raise_for_status`); a 2xx response returns the parsed JSON body when the
body is non-empty with a JSON content type, and `{}` otherwise.  The second
component is the list of upstream calls issued (always exactly one). -/
def client_get (env : Env) (bearer : String) (path : String)
    (params : List (String × Json)) : Except GetError Json × List UpCall :=
  let query := wire_params params
  let call : UpCall := ⟨path, query, bearer⟩
  let resp := env.respond call
  let res : Except GetError Json :=
    if resp.status = 429 then
      Except.error (GetError.rateLimited
        (rate_limit_msg (hget resp.headers "X-RateLimit-Reset")))
    else if resp.status < 200 ∨ 300 ≤ resp.status then
      Except.error (GetError.httpStatus resp.status)
    else if bodyNonempty resp.body && contentTypeJson resp.headers then
      match resp.body with
      | Body.jsonVal j => Except.ok j
      | _ => Except.error GetError.jsonDecode
    else Except.ok (Json.obj [])
  (res, [call])

/-! ## Token resolution and dispatch (`_bearer_for_upstream`, `_dispatch_get`) -/

/-- The validated OAuth access token as surfaced by `get_access_token()`. -/
structure AccessTokenV where
  token : String
  client_id : String
  scopes : List String

/-- Per-request context: the validated OAuth token (if any) and the raw
`Authorization` header of the HTTP request (if any). -/
structure ReqCtx where
  access_token : Option AccessTokenV
  auth_header : Option String

/-- Failures of `_bearer_for_upstream`: the explicit
`RuntimeError("Authorization header missing from request.")`, or the
`IndexError` from `auth_header.split(" ", 1)[1]` when the header holds
no space. -/
inductive BearerErr where
  | missingCredential : BearerErr
  | indexError : BearerErr

/-- The tail of `split(" ", 1)` past the first space, if any. -/
def after_first_space : List Char → Option (List Char)
  | [] => none
  | c :: rest => if c = ' ' then some rest else after_first_space rest

/-- `auth_header.split(" ", 1)[1]`: everything after the first space; raises
`IndexError` when the header contains no space. -/
def header_token (h : String) : Except BearerErr String :=
  match after_first_space h.data with
  | some tail => Except.ok (String.mk tail)
  | none => Except.error BearerErr.indexError

/-- The header-fallback path of `_bearer_for_upstream` (`if not auth_header`
treats a missing and an empty header alike). -/
def header_fallback (ctx : ReqCtx) : Except BearerErr String :=
  match ctx.auth_header with
  | none => Except.error BearerErr.missingCredential
  | some h => if h = "" then Except.error BearerErr.missingCredential else header_token h

/-- `_bearer_for_upstream`: prefer the validated OAuth token when it is truthy
(`if token and token.token`), else fall back to the raw header. -/
def bearer_for_upstream (ctx : ReqCtx) : Except BearerErr String :=
  match ctx.access_token with
  | some t => if t.token = "" then header_fallback ctx else Except.ok t.token
  | none => header_fallback ctx

/-- Errors surfaced by `_dispatch_get`. -/
inductive DispErr where
  | credential : BearerErr → DispErr
  | get : GetError → DispErr

/-- Wrap a client result as a dispatch result. -/
def wrap_get : Except GetError Json × List UpCall → Except DispErr Json × List UpCall
  | (Except.ok j, lg) => (Except.ok j, lg)
  | (Except.error e, lg) => (Except.error (DispErr.get e), lg)

/-- `_dispatch_get`: resolve the bearer, then perform one `WhoopClient.get`
scoped to this call.  When token resolution fails no upstream call is made. -/
def dispatch_get (env : Env) (ctx : ReqCtx) (path : String)
    (params : List (String × Json)) : Except DispErr Json × List UpCall :=
  match bearer_for_upstream ctx with
  | Except.error e => (Except.error (DispErr.credential e), [])
  | Except.ok tok => wrap_get (client_get env tok path params)

/-! ## Paginator (`utils.collect_paginated`) -/

/-- An async fetch capability: parameters to a result (or a raised error)
together with the upstream calls it issued. -/
def FetchFn : Type :=
  List (String × Json) → Except DispErr Json × List UpCall

/-- The `while True` loop of `collect_paginated`, with explicit fuel: one
fetch per iteration; `none` means the loop was still running after `fuel`
iterations.  A completed run returns the accumulated records, the number of
fetch calls made, and the concatenated upstream call log. -/
def collect_paginated_aux (fetch : FetchFn) (params : List (String × Json)) :
    Option Json → Nat → Option (Except DispErr (List Json) × Nat × List UpCall)
  | _, 0 => none
  | next_token, fuel + 1 =>
    let call_params := match next_token with
      | some t => if pyTruthy t then objSet params "next_token" t else params
      | none => params
    match fetch call_params with
    | (Except.error e, lg) => some (Except.error e, 1, lg)
    | (Except.ok data, lg) =>
      let recs : List Json := match jsonGet data "records" with
        | some (Json.arr xs) => xs
        | some (Json.str s) => s.data.map (fun c => Json.str (String.singleton c))
        | _ => []
      match pyOr (jsonGet data "next_token") (jsonGet data "nextToken") with
      | some t =>
        if pyTruthy t then
          match collect_paginated_aux fetch params (some t) fuel with
          | none => none
          | some (Except.ok items, n, lg2) => some (Except.ok (recs ++ items), n + 1, lg ++ lg2)
          | some (Except.error e, n, lg2) => some (Except.error e, n + 1, lg ++ lg2)
        else some (Except.ok recs, 1, lg)
      | none => some (Except.ok recs, 1, lg)

/-- `utils.collect_paginated`: fetch pages until pagination tokens run out. -/
def collect_paginated (fetch : FetchFn) (base_params : List (String × Json))
    (fuel : Nat) : Option (Except DispErr (List Json) × Nat × List UpCall) :=
  collect_paginated_aux fetch base_params none fuel

/-! ## `get_activities` -/

/-- Python `days_back or 7` (`None` and `0` are falsy). -/
def pyOrInt (o : Option Int) (d : Int) : Int :=
  match o with
  | some k => if k = 0 then d else k
  | none => d

/-- The time-window computation of `get_activities` (lines 225-234):
date-only strings are expanded (`T00:00:00Z` for the start, `T23:59:59Z` for
the end), strings containing `T` pass through unchanged, and falsy values
fall back to `days_ago(days_back or 7)` / now. -/
def activities_window (now : Int) (days_back : Option Int)
    (start_date end_date : Option String) : String × String :=
  let start := match start_date with
    | some s =>
      if s ≠ "" then (if s.data.contains 'T' then s else s ++ "T00:00:00Z")
      else days_ago now (pyOrInt days_back 7)
    | none => days_ago now (pyOrInt days_back 7)
  let endS := match end_date with
    | some s =>
      if s ≠ "" then (if s.data.contains 'T' then s else s ++ "T23:59:59Z")
      else isoformat_utc now
    | none => isoformat_utc now
  (start, endS)

/-- The `{start, end, limit: 25}` base parameters of each section. -/
def act_params (s e : String) : List (String × Json) :=
  [("start", Json.str s), ("end", Json.str e), ("limit", Json.num 25)]

/-- One `if activity_type in (...)` section of `get_activities`: run the
paginated fetch for `path` and append its records under `key`; an error
raised inside aborts the tool call (accumulated keys are discarded). -/
def section_step (env : Env) (ctx : ReqCtx) (cond : Bool) (path key : String)
    (base : List (String × Json)) (fuel : Nat)
    (acc : Option (Except DispErr (List (String × Json)) × List UpCall)) :
    Option (Except DispErr (List (String × Json)) × List UpCall) :=
  match acc with
  | none => none
  | some (Except.error e, lg) => some (Except.error e, lg)
  | some (Except.ok res, lg) =>
    if cond then
      match collect_paginated (fun p => dispatch_get env ctx path p) base fuel with
      | none => none
      | some (Except.error e, _, lg2) => some (Except.error e, lg ++ lg2)
      | some (Except.ok items, _, lg2) =>
        some (Except.ok (res ++ [(key, Json.arr items)]), lg ++ lg2)
    else some (Except.ok res, lg)

/-- `get_activities`: compute the window, then fetch the requested sections
(sleep, workouts, recovery, cycles, in source order) with `{start, end,
limit: 25}`, paginating each to exhaustion.  The result starts with the
`window` key and gains one key per fetched section. -/
def get_activities (env : Env) (ctx : ReqCtx) (now : Int) (activity_type : String)
    (days_back : Option Int) (start_date end_date : Option String) (fuel : Nat) :
    Option (Except DispErr (List (String × Json)) × List UpCall) :=
  let w := activities_window now days_back start_date end_date
  let base := act_params w.1 w.2
  let init : Option (Except DispErr (List (String × Json)) × List UpCall) :=
    some (Except.ok [("window", Json.obj [("start", Json.str w.1), ("end", Json.str w.2)])], [])
  section_step env ctx (activity_type = "all" ∨ activity_type = "cycles")
    "/v2/cycle" "cycles" base fuel
    (section_step env ctx (activity_type = "all" ∨ activity_type = "recovery")
      "/v2/recovery" "recovery" base fuel
      (section_step env ctx (activity_type = "all" ∨ activity_type = "workouts")
        "/v2/activity/workout" "workouts" base fuel
        (section_step env ctx (activity_type = "all" ∨ activity_type = "sleep")
          "/v2/activity/sleep" "sleep" base fuel init)))

/-! ## Token verifier with cache (`WhoopTokenVerifier.verify_token`) -/

/-- The `AccessToken` default `cache_ttl_s` of the verifier constructor. -/
def default_cache_ttl_s : Rat := 300

/-- State of a `WhoopTokenVerifier`: TTL, the token cache (raw token →
(cache-expiry instant, profile claims)), the client-id hint and the fixed
declared scope set. -/
structure VerifierSt where
  cache_ttl_s : Rat
  cache : List (String × Rat × Json)
  client_id_hint : String
  required_scopes : List String

/-- `token in self._cache` / `self._cache[token]`. -/
def cache_lookup : List (String × Rat × Json) → String → Option (Rat × Json)
  | [], _ => none
  | (k, e, c) :: rest, key => if k = key then some (e, c) else cache_lookup rest key

/-- `self._cache[token] = value` (dict assignment: replace in place or append). -/
def cache_insert : List (String × Rat × Json) → String → Rat × Json →
    List (String × Rat × Json)
  | [], key, v => [(key, v.1, v.2)]
  | (k, e, c) :: rest, key, v =>
    if k = key then (k, v.1, v.2) :: rest else (k, e, c) :: cache_insert rest key v

/-- Outcome of `verify_token`: a validated `AccessToken`, `None` (invalid), or
a raised JSON decode error (`response.json()` on a 200 with a malformed body). -/
inductive VerifyOut where
  | valid : AccessTokenV → VerifyOut
  | invalid : VerifyOut
  | decodeErr : VerifyOut

/-- The probe path of `verify_token`: the upstream profile fetch has returned
`probe`; a 200 populates the cache with `(now + ttl, claims)` and succeeds,
anything else returns `None` without touching the cache.  The final `Bool` of
the result is `true` iff the upstream probe was issued. -/
def verify_probe (st : VerifierSt) (now : Rat) (token : String) (probe : HttpResp) :
    VerifierSt × VerifyOut × Bool :=
  if probe.status ≠ 200 then (st, VerifyOut.invalid, true)
  else
    match probe.body with
    | Body.malformed => (st, VerifyOut.decodeErr, true)
    | Body.empty =>
      ({st with cache := cache_insert st.cache token (now + st.cache_ttl_s, Json.obj [])},
       VerifyOut.valid ⟨token, st.client_id_hint, st.required_scopes⟩, true)
    | Body.jsonVal j =>
      ({st with cache := cache_insert st.cache token (now + st.cache_ttl_s, j)},
       VerifyOut.valid ⟨token, st.client_id_hint, st.required_scopes⟩, true)

/-- `WhoopTokenVerifier.verify_token`: a cache entry with `now < expires_at`
is trusted without probing; otherwise the upstream profile endpoint is probed
(its would-be response is the `probe` argument). -/
def verify_token (st : VerifierSt) (now : Rat) (token : String) (probe : HttpResp) :
    VerifierSt × VerifyOut × Bool :=
  match cache_lookup st.cache token with
  | some (expires_at, _) =>
    if now < expires_at then
      (st, VerifyOut.valid ⟨token, st.client_id_hint, st.required_scopes⟩, false)
    else verify_probe st now token probe
  | none => verify_probe st now token probe

/-! ## OAuth helper server: the `/refresh_token` route -/

/-- The vendor token endpoint, as a pure environment mapping the POSTed form
fields to a response. -/
structure OauthEnv where
  post_token : List (String × Json) → HttpResp

/-- A Flask view result: a redirect, or a JSON error payload with a status. -/
inductive FlaskResp where
  | redirect : String → FlaskResp
  | errorJson : String → Nat → FlaskResp

/-- `refresh_token` (`whoop_oauth_server.py`): load the persisted token
record, POST `grant_type=refresh_token` with the stored refresh token and
client credentials, and on a 200 overwrite the record; on any other status
surface `Token refresh failed: <status> - <body>` without touching the file.
The persisted file is modelled as `Option Json` (its current parsed content);
the returned second component is the file content after the request.  `now`
stands for the server's `datetime.now()`; a file write is modelled as always
succeeding. -/
def refresh_token_route (env : OauthEnv) (client_id client_secret : String)
    (file : Option Json) (now : Int) : FlaskResp × Option Json :=
  match file with
  | none => (FlaskResp.errorJson "No refresh token available" 400, none)
  | some tokens =>
    match jsonGet tokens "refresh_token" with
    | none => (FlaskResp.errorJson "No refresh token available" 400, some tokens)
    | some rt =>
      let resp := env.post_token
        [("grant_type", Json.str "refresh_token"), ("refresh_token", rt),
         ("client_id", Json.str client_id), ("client_secret", Json.str client_secret)]
      if resp.status = 200 then
        match resp.body with
        | Body.jsonVal (Json.obj fs) =>
          let expires_in : Int := match objGet fs "expires_in" with
            | some (Json.num k) => k
            | _ => 3600
          let fs2 := objSet fs "expires_at" (Json.str (isoformat_base (now + expires_in)))
          (FlaskResp.redirect "/?refreshed=true", some (Json.obj fs2))
        | _ =>
          -- `response.json()` raised (or the body is not a dict): caught by the
          -- broad `except Exception`, surfaced as a 500, file untouched.
          (FlaskResp.errorJson "Error refreshing token" 500, some tokens)
      else
        (FlaskResp.errorJson
          ("Token refresh failed: " ++ Nat.repr resp.status ++ " - " ++ resp.text) 400,
         some tokens)

/-! ## `get_trends`, month branch (lines 294-303) -/

/-- Days in a calendar month (Gregorian). -/
def days_in_month (y m : Nat) : Nat :=
  if m = 2 then (if y % 4 = 0 ∧ (y % 100 ≠ 0 ∨ y % 400 = 0) then 29 else 28)
  else if m = 4 ∨ m = 6 ∨ m = 9 ∨ m = 11 then 30 else 31

/-- `prev_month = now.month - 1 if now.month > 1 else 12`. -/
def trends_prev_month (m : Nat) : Nat := if 1 < m then m - 1 else 12

/-- `prev_year = now.year if now.month > 1 else now.year - 1`. -/
def trends_prev_year (y m : Nat) : Nat := if 1 < m then y else y - 1

/-- Python `f"{n:02d}"`. -/
def format02d (n : Nat) : String :=
  if n < 10 then "0" ++ Nat.repr n else Nat.repr n

/-- The three literal window strings built by the month branch of
`get_trends` from `now.year`, `now.month`, `now.day`:
(current_start, prev_start, prev_end).  Note `now.day` is substituted into
the previous month without clamping. -/
def trends_month_windows (y m d : Nat) : String × String × String :=
  (Nat.repr y ++ "-" ++ format02d m ++ "-01T00:00:00Z",
   Nat.repr (trends_prev_year y m) ++ "-" ++ format02d (trends_prev_month m) ++
     "-01T00:00:00Z",
   Nat.repr (trends_prev_year y m) ++ "-" ++ format02d (trends_prev_month m) ++
     "-" ++ format02d d ++ "T23:59:59Z")

/-- A valid Gregorian calendar date with a four-digit year (the year range of
Python `datetime` timestamps rendered at fixed width; every civil date a
`datetime.now(timezone.utc)` can produce with year ≥ 1000 is in scope). -/
def valid_ymd (y m d : Nat) : Prop :=
  1000 ≤ y ∧ y ≤ 9999 ∧ 1 ≤ m ∧ m ≤ 12 ∧ 1 ≤ d ∧ d ≤ days_in_month y m

instance valid_ymd_decidable (y m d : Nat) : Decidable (valid_ymd y m d) := by
  unfold valid_ymd; infer_instance

/-- The shape of a window-end string denoting the last second of a calendar
day, as `get_trends` builds it. -/
def date_end_str (y m d : Nat) : String :=
  Nat.repr y ++ "-" ++ format02d m ++ "-" ++ format02d d ++ "T23:59:59Z"

/-- The string denotes a valid calendar date (four-digit year). -/
def IsValidDateEndStr (s : String) : Prop :=
  ∃ y m d, valid_ymd y m d ∧ s = date_end_str y m d

/-! ## Concrete environments used to instantiate the theorems -/

/-- Page `i` of a token-paginated listing backed by `pages`: a JSON object
with the page's records and, except on the last page, a (truthy) numeric
`next_token` pointing at page `i + 1`. -/
def page_body (pages : List (List Json)) (i : Nat) : Json :=
  Json.obj (("records", Json.arr (pages.getD i [])) ::
    (if i + 1 < pages.length then [("next_token", Json.num (Int.ofNat (i + 1)))] else []))

/-- A vendor serving `pages`: the `nextToken` wire parameter selects the page
(page 0 when absent); every response is a 200 with a JSON content type. -/
def pages_env (pages : List (List Json)) : Env :=
  ⟨fun c => ⟨200, [("content-type", "application/json")],
    Body.jsonVal (page_body pages (match objGet c.params "nextToken" with
      | some (Json.num k) => k.toNat
      | _ => 0)), ""⟩⟩

/-- The wire call that fetches page `i` of a sleep pagination. -/
def page_call (s e tok : String) (i : Nat) : UpCall :=
  if i = 0 then ⟨"/v2/activity/sleep", act_params s e, tok⟩
  else ⟨"/v2/activity/sleep", act_params s e ++ [("nextToken", Json.num (Int.ofNat i))], tok⟩

/-- The expected upstream call log of a full sleep pagination over `n` pages. -/
def pages_log (s e tok : String) (n : Nat) : List UpCall :=
  (List.range n).map (page_call s e tok)

/-- A fetch that always answers with a (truthy) pagination token. -/
def const_token_fetch : FetchFn :=
  fun _ =>
    (Except.ok (Json.obj [("records", Json.arr []), ("next_token", Json.str "more")]), [])

/-- "No validated OAuth token is available": `get_access_token()` returned
`None`, or a token whose string is falsy. -/
def no_oauth (ctx : ReqCtx) : Prop :=
  match ctx.access_token with
  | none => True
  | some t => t.token = ""

/-- The response `WhoopClient.get` observes for the given arguments. -/
def resp_of (env : Env) (bearer path : String) (params : List (String × Json)) : HttpResp :=
  env.respond ⟨path, wire_params params, bearer⟩

/-! ## Helper lemmas -/

theorem cache_lookup_insert (c : List (String × Rat × Json)) (k : String) (v : Rat × Json) :
    cache_lookup (cache_insert c k v) k = some v := by
  induction c with
  | nil => simp [cache_insert, cache_lookup]
  | cons hd tl ih =>
    obtain ⟨k0, e0, c0⟩ := hd
    by_cases hk : k0 = k
    · simp [cache_insert, cache_lookup, hk]
    · simp [cache_insert, cache_lookup, hk, ih]

theorem verify_probe_probed (st : VerifierSt) (now : Rat) (tok : String) (p : HttpResp) :
    (verify_probe st now tok p).2.2 = true := by
  unfold verify_probe
  by_cases h : p.status ≠ 200
  · rw [if_pos h]
  · rw [if_neg h]
    cases p.body <;> rfl

theorem after_first_space_append (pre : List Char) (tail : List Char)
    (hpre : pre.contains ' ' = false) :
    after_first_space (pre ++ ' ' :: tail) = some tail := by
  induction pre with
  | nil => simp [after_first_space]
  | cons c cs ih =>
    have h1 : ((' ' == c) || cs.contains ' ') = false := hpre
    rw [Bool.or_eq_false_iff] at h1
    have hc : ¬ c = ' ' := fun h => by simp [h] at h1
    simpa [after_first_space, hc] using ih h1.2

theorem after_first_space_none (l : List Char) (h : l.contains ' ' = false) :
    after_first_space l = none := by
  induction l with
  | nil => rfl
  | cons c cs ih =>
    have h1 : ((' ' == c) || cs.contains ' ') = false := h
    rw [Bool.or_eq_false_iff] at h1
    have hc : ¬ c = ' ' := fun hh => by simp [hh] at h1
    simpa [after_first_space, hc] using ih h1.2

theorem collect_paginated_aux_succ (fetch : FetchFn) (params : List (String × Json))
    (ntok : Option Json) (n : Nat) :
    collect_paginated_aux fetch params ntok (n + 1) =
      (let call_params := match ntok with
        | some t => if pyTruthy t then objSet params "next_token" t else params
        | none => params
      match fetch call_params with
      | (Except.error e, lg) => some (Except.error e, 1, lg)
      | (Except.ok data, lg) =>
        let recs : List Json := match jsonGet data "records" with
          | some (Json.arr xs) => xs
          | some (Json.str s) => s.data.map (fun c => Json.str (String.singleton c))
          | _ => []
        match pyOr (jsonGet data "next_token") (jsonGet data "nextToken") with
        | some t =>
          if pyTruthy t then
            match collect_paginated_aux fetch params (some t) n with
            | none => none
            | some (Except.ok items, m, lg2) => some (Except.ok (recs ++ items), m + 1, lg ++ lg2)
            | some (Except.error e, m, lg2) => some (Except.error e, m + 1, lg ++ lg2)
          else some (Except.ok recs, 1, lg)
        | none => some (Except.ok recs, 1, lg)) := rfl

/-! ## C4 -/

/-- C4 counterexample: `utils.collect_paginated` has no maximum-page bound.
Driven by a fetch that always returns a (truthy) pagination token and started
with the claimed default bound of 10 as fuel, the loop has issued 10 fetch
calls and is still running (`none`), so it did not stop after exactly 10
calls. -/
theorem c4_cex_unbounded_after_default_bound :
    collect_paginated const_token_fetch [("limit", Json.num 25)] 10 = none := by
  rfl

/-- C4 (amended): `collect_paginated` accepts no page bound at all: for every
fetch that always answers successfully with a truthy pagination token, the
loop never terminates — for every fuel `N` it is still running after `N`
fetch calls. -/
theorem c4_collect_paginated_never_stops (fetch : FetchFn)
    (h : ∀ p, ∃ data lg, fetch p = (Except.ok data, lg) ∧
        ∃ t, pyOr (jsonGet data "next_token") (jsonGet data "nextToken") = some t ∧
          pyTruthy t = true)
    (base : List (String × Json)) (fuel : Nat) :
    collect_paginated fetch base fuel = none := by
  suffices haux : ∀ f ntok, collect_paginated_aux fetch base ntok f = none by
    exact haux fuel none
  intro f
  induction f with
  | zero => intro ntok; rfl
  | succ n ih =>
    intro ntok
    obtain ⟨data, lg, hf, t, ht, htr⟩ := h (match ntok with
      | some t0 => if pyTruthy t0 then objSet base "next_token" t0 else base
      | none => base)
    rw [collect_paginated_aux_succ]
    simp only [hf, ht, htr, if_true]
    rw [ih (some t)]

/-- C4 witness: the always-token fetch satisfies the hypothesis, and the
paginator is still running after 7 calls on it. -/
theorem c4_witness :
    (∀ p, ∃ data lg, const_token_fetch p = (Except.ok data, lg) ∧
        ∃ t, pyOr (jsonGet data "next_token") (jsonGet data "nextToken") = some t ∧
          pyTruthy t = true) ∧
    collect_paginated const_token_fetch [("start", Json.str "s")] 7 = none := by
  have h : ∀ p, ∃ data lg, const_token_fetch p = (Except.ok data, lg) ∧
      ∃ t, pyOr (jsonGet data "next_token") (jsonGet data "nextToken") = some t ∧
        pyTruthy t = true :=
    fun p => ⟨_, _, rfl, Json.str "more", rfl, rfl⟩
  exact ⟨h, c4_collect_paginated_never_stops const_token_fetch h [("start", Json.str "s")] 7⟩

/-! ## C9 -/

/-- C9 counterexample: the empty string contains no `T`, yet
`get_activities` does not expand it — `if start_date:` treats `""` as unset,
so the window start is `days_ago(7)`, not `"" + "T00:00:00Z"`. -/
theorem c9_cex_empty_start_date :
    ("" : String).data.contains 'T' = false ∧
    (activities_window 0 (some 7) (some "") none).1 = days_ago 0 7 ∧
    (activities_window 0 (some 7) (some "") none).1 ≠ "" ++ "T00:00:00Z" := by
  refine ⟨by decide, rfl, by decide⟩

/-- C9 (amended): for every `get_activities` call, a NON-EMPTY `start_date`
containing no `T` is expanded to exactly `start_date + "T00:00:00Z"`, a
NON-EMPTY `end_date` containing no `T` to exactly `end_date + "T23:59:59Z"`
(the last second of that day), and non-empty strings containing `T` pass
through to the window unchanged and unvalidated; empty strings are treated
as unset. -/
theorem c9_date_expansion (now : Int) (days_back : Option Int)
    (sd ed : Option String) :
    (∀ s, sd = some s → s ≠ "" → s.data.contains 'T' = false →
      (activities_window now days_back sd ed).1 = s ++ "T00:00:00Z") ∧
    (∀ s, sd = some s → s ≠ "" → s.data.contains 'T' = true →
      (activities_window now days_back sd ed).1 = s) ∧
    (∀ s, ed = some s → s ≠ "" → s.data.contains 'T' = false →
      (activities_window now days_back sd ed).2 = s ++ "T23:59:59Z") ∧
    (∀ s, ed = some s → s ≠ "" → s.data.contains 'T' = true →
      (activities_window now days_back sd ed).2 = s) := by
  refine ⟨?_, ?_, ?_, ?_⟩ <;> rintro s rfl hne hT <;>
    simp [activities_window, hne, hT] <;> intro hmem
  · exact absurd hmem (by simpa using hT)
  · exact absurd (by simpa using hT) hmem
  · exact absurd hmem (by simpa using hT)
  · exact absurd (by simpa using hT) hmem

/-- C9 witness: a date-only start expands with `T00:00:00Z`; an end carrying
a `T` passes through unchanged. -/
theorem c9_witness :
    (("2024-01-02" : String) ≠ "" ∧ ("2024-01-02" : String).data.contains 'T' = false ∧
      (activities_window 5 none (some "2024-01-02") (some "2024-02-03T04:05:06Z")).1 =
        "2024-01-02" ++ "T00:00:00Z") ∧
    (("2024-02-03T04:05:06Z" : String) ≠ "" ∧
      ("2024-02-03T04:05:06Z" : String).data.contains 'T' = true ∧
      (activities_window 5 none (some "2024-01-02") (some "2024-02-03T04:05:06Z")).2 =
        "2024-02-03T04:05:06Z") := by
  have h := c9_date_expansion 5 none (some "2024-01-02") (some "2024-02-03T04:05:06Z")
  exact ⟨⟨by decide, by decide, h.1 _ rfl (by decide) (by decide)⟩,
         ⟨by decide, by decide, h.2.2.2 _ rfl (by decide) (by decide)⟩⟩

/-! ## C10 -/

theorem bearer_no_oauth (ctx : ReqCtx) (h : no_oauth ctx) :
    bearer_for_upstream ctx = header_fallback ctx := by
  obtain ⟨ao, ah⟩ := ctx
  cases ao with
  | none => rfl
  | some t =>
    have ht : t.token = "" := h
    simp [bearer_for_upstream, ht]

/-- C10: when no validated OAuth token is available and an `Authorization`
header is present, the fallback token is exactly the substring after the
first space of the raw header value — whatever the scheme prefix is, it is
never checked; a non-empty header with no space at all raises the
index-out-of-range error, not the missing-credential error. -/
theorem c10_header_fallback_split :
    (∀ (ctx : ReqCtx) (pre tl : String), no_oauth ctx →
      pre.data.contains ' ' = false →
      ctx.auth_header = some (pre ++ " " ++ tl) →
      bearer_for_upstream ctx = Except.ok tl) ∧
    (∀ (ctx : ReqCtx) (h : String), no_oauth ctx →
      ctx.auth_header = some h → h ≠ "" → h.data.contains ' ' = false →
      bearer_for_upstream ctx = Except.error BearerErr.indexError) := by
  constructor
  · intro ctx pre tl hno hpre hah
    rw [bearer_no_oauth ctx hno]
    unfold header_fallback
    rw [hah]
    have hne : pre ++ " " ++ tl ≠ "" := by
      intro hcontra
      have hdc : (pre ++ " " ++ tl).data = [] := congrArg String.data hcontra
      rw [String.data_append, String.data_append] at hdc
      simp at hdc
    have hdata : (pre ++ " " ++ tl).data = pre.data ++ ' ' :: tl.data := by
      rw [String.data_append, String.data_append]
      simp
    dsimp only
    rw [if_neg hne]
    unfold header_token
    rw [hdata, after_first_space_append pre.data tl.data hpre]
  · intro ctx h hno hah hne hsp
    rw [bearer_no_oauth ctx hno]
    unfold header_fallback
    rw [hah]
    dsimp only
    rw [if_neg hne]
    unfold header_token
    rw [after_first_space_none h.data hsp]

/-- C10 witness: a `Basic`-prefixed header yields the post-space substring
(the scheme is not checked); a space-free header raises the index error. -/
theorem c10_witness :
    (no_oauth ⟨none, some ("Basic" ++ " " ++ "xyz")⟩ ∧
      ("Basic" : String).data.contains ' ' = false ∧
      bearer_for_upstream ⟨none, some ("Basic" ++ " " ++ "xyz")⟩ = Except.ok "xyz") ∧
    (no_oauth ⟨none, some "tokenblob"⟩ ∧ ("tokenblob" : String) ≠ "" ∧
      ("tokenblob" : String).data.contains ' ' = false ∧
      bearer_for_upstream ⟨none, some "tokenblob"⟩ =
        Except.error BearerErr.indexError) := by
  have h := c10_header_fallback_split
  exact ⟨⟨trivial, by decide, h.1 _ "Basic" "xyz" trivial (by decide) rfl⟩,
         ⟨trivial, by decide, by decide,
          h.2 _ "tokenblob" trivial rfl (by decide) (by decide)⟩⟩

/-! ## C7 -/

/-- C7: tool dispatch resolves the bearer by preferring the validated OAuth
token; with no usable OAuth token it falls back to the raw `Authorization`
header value (from which the token is extracted); with neither available it
fails with the missing-credential error and issues no upstream call (empty
call log). -/
theorem c7_dispatch_token_resolution (env : Env) (path : String)
    (params : List (String × Json)) :
    (∀ (t : AccessTokenV) (hdr : Option String), t.token ≠ "" →
      dispatch_get env ⟨some t, hdr⟩ path params =
        wrap_get (client_get env t.token path params)) ∧
    (∀ (ctx : ReqCtx) (h : String), no_oauth ctx → ctx.auth_header = some h →
      h ≠ "" →
      dispatch_get env ctx path params =
        (match header_token h with
         | Except.ok tok => wrap_get (client_get env tok path params)
         | Except.error e => (Except.error (DispErr.credential e), ([] : List UpCall)))) ∧
    (∀ (ctx : ReqCtx), no_oauth ctx →
      (ctx.auth_header = none ∨ ctx.auth_header = some "") →
      dispatch_get env ctx path params =
        (Except.error (DispErr.credential BearerErr.missingCredential),
         ([] : List UpCall))) := by
  refine ⟨?_, ?_, ?_⟩
  · intro t hdr ht
    unfold dispatch_get bearer_for_upstream
    simp [ht]
  · intro ctx h hno hah hne
    unfold dispatch_get
    rw [bearer_no_oauth ctx hno]
    unfold header_fallback
    rw [hah]
    dsimp only
    rw [if_neg hne]
    cases header_token h <;> rfl
  · intro ctx hno hdr
    unfold dispatch_get
    rw [bearer_no_oauth ctx hno]
    unfold header_fallback
    rcases hdr with hdr | hdr <;> rw [hdr]
    dsimp only
    rw [if_pos rfl]

/-- C7 witness: the three resolution modes at concrete inputs. -/
theorem c7_witness :
    (("tok" : String) ≠ "" ∧
      dispatch_get ⟨fun _ => ⟨200, [], Body.empty, ""⟩⟩
          ⟨some ⟨"tok", "cid", []⟩, some "ignored"⟩ "/v2/recovery" [] =
        wrap_get (client_get ⟨fun _ => ⟨200, [], Body.empty, ""⟩⟩ "tok" "/v2/recovery" [])) ∧
    (no_oauth ⟨none, some "Bearer abc"⟩ ∧
      dispatch_get ⟨fun _ => ⟨200, [], Body.empty, ""⟩⟩ ⟨none, some "Bearer abc"⟩
          "/v2/recovery" [] =
        (match header_token "Bearer abc" with
         | Except.ok tok =>
            wrap_get (client_get ⟨fun _ => ⟨200, [], Body.empty, ""⟩⟩ tok "/v2/recovery" [])
         | Except.error e => (Except.error (DispErr.credential e), ([] : List UpCall)))) ∧
    (no_oauth ⟨none, none⟩ ∧
      dispatch_get ⟨fun _ => ⟨200, [], Body.empty, ""⟩⟩ ⟨none, none⟩ "/v2/recovery" [] =
        (Except.error (DispErr.credential BearerErr.missingCredential),
         ([] : List UpCall))) := by
  have h := c7_dispatch_token_resolution
    (⟨fun _ => ⟨200, [], Body.empty, ""⟩⟩ : Env) "/v2/recovery" []
  exact ⟨⟨by decide, h.1 ⟨"tok", "cid", []⟩ (some "ignored") (by decide)⟩,
         ⟨trivial, h.2.1 _ "Bearer abc" trivial rfl (by decide)⟩,
         ⟨trivial, h.2.2 _ trivial (Or.inl rfl)⟩⟩

/-! ## C5 -/

/-- C5: an upstream 429 always raises the rate-limit error (never a normal
result); its message carries the `X-RateLimit-Reset` header value whenever
that header is present (as a substring of the message), and is the fixed
generic retry hint when the header is absent. -/
theorem c5_rate_limited_on_429 (env : Env) (bearer path : String)
    (params : List (String × Json))
    (h429 : (resp_of env bearer path params).status = 429) :
    (client_get env bearer path params).1 =
      Except.error (GetError.rateLimited (rate_limit_msg
        (hget (resp_of env bearer path params).headers "X-RateLimit-Reset"))) ∧
    (∀ v, hget (resp_of env bearer path params).headers "X-RateLimit-Reset" = some v →
      ∃ a b, rate_limit_msg (some v) = a ++ v ++ b) ∧
    (hget (resp_of env bearer path params).headers "X-RateLimit-Reset" = none →
      rate_limit_msg none = "WHOOP rate limit hit; retry after a short delay seconds") ∧
    (∀ j, (client_get env bearer path params).1 ≠ Except.ok j) := by
  have hmain : (client_get env bearer path params).1 =
      Except.error (GetError.rateLimited (rate_limit_msg
        (hget (resp_of env bearer path params).headers "X-RateLimit-Reset"))) := by
    unfold client_get
    dsimp only
    rw [show env.respond ⟨path, wire_params params, bearer⟩ =
          resp_of env bearer path params from rfl]
    rw [if_pos h429]
  refine ⟨hmain, ?_, fun _ => rfl, ?_⟩
  · intro v hv
    unfold rate_limit_msg pyOrStr
    by_cases hveq : v = ""
    · subst hveq
      exact ⟨"", "WHOOP rate limit hit; retry after a short delay seconds", rfl⟩
    · refine ⟨"WHOOP rate limit hit; retry after ", " seconds", ?_⟩
      dsimp only
      rw [if_neg hveq]
  · intro j
    rw [hmain]
    intro hcontra
    exact Except.noConfusion hcontra

/-- C5 witness: a 429 with `X-RateLimit-Reset: 60` raises the rate-limit
error whose message embeds `60`. -/
theorem c5_witness :
    (resp_of ⟨fun _ => ⟨429, [("X-RateLimit-Reset", "60")], Body.empty, ""⟩⟩
        "tok" "/v2/recovery" []).status = 429 ∧
    (client_get ⟨fun _ => ⟨429, [("X-RateLimit-Reset", "60")], Body.empty, ""⟩⟩
        "tok" "/v2/recovery" []).1 =
      Except.error (GetError.rateLimited
        ("WHOOP rate limit hit; retry after " ++ "60" ++ " seconds")) := by
  have h := c5_rate_limited_on_429
    (⟨fun _ => ⟨429, [("X-RateLimit-Reset", "60")], Body.empty, ""⟩⟩ : Env)
    "tok" "/v2/recovery" [] rfl
  exact ⟨rfl, h.1⟩

/-! ## C6 -/

/-- C6 counterexample: a 200 response with a JSON content type whose
non-empty body does not parse IS surfaced as an error (`response.json()`
raises), contradicting "a malformed response body is never surfaced as an
error". -/
theorem c6_cex_malformed_json_body_is_error :
    (client_get ⟨fun _ => ⟨200, [("content-type", "application/json")],
        Body.malformed, "\x7b"⟩⟩ "tok" "/v2/recovery" []).1 =
      Except.error GetError.jsonDecode := by
  rfl

/-- C6 (amended): on a 2xx response, a non-empty body that parses as JSON
under a JSON content type is returned as the parsed value; an empty body or
a non-JSON content type yields the empty object rather than an error; but a
malformed non-empty body under a JSON content type surfaces as a JSON decode
error. -/
theorem c6_success_body_handling (env : Env) (bearer path : String)
    (params : List (String × Json))
    (h2xx : 200 ≤ (resp_of env bearer path params).status ∧
      (resp_of env bearer path params).status < 300) :
    (∀ j, (resp_of env bearer path params).body = Body.jsonVal j →
      contentTypeJson (resp_of env bearer path params).headers = true →
      (client_get env bearer path params).1 = Except.ok j) ∧
    ((resp_of env bearer path params).body = Body.empty ∨
       contentTypeJson (resp_of env bearer path params).headers = false →
      (client_get env bearer path params).1 = Except.ok (Json.obj [])) ∧
    ((resp_of env bearer path params).body = Body.malformed →
      contentTypeJson (resp_of env bearer path params).headers = true →
      (client_get env bearer path params).1 = Except.error GetError.jsonDecode) := by
  have hne : ¬ (resp_of env bearer path params).status = 429 := by omega
  have hrange : ¬ ((resp_of env bearer path params).status < 200 ∨
      300 ≤ (resp_of env bearer path params).status) := by
    push_neg
    omega
  refine ⟨?_, ?_, ?_⟩
  · intro j hb hct
    unfold client_get
    dsimp only
    rw [show env.respond ⟨path, wire_params params, bearer⟩ =
          resp_of env bearer path params from rfl]
    rw [if_neg hne, if_neg hrange, hb, hct]
    rfl
  · intro hcase
    unfold client_get
    dsimp only
    rw [show env.respond ⟨path, wire_params params, bearer⟩ =
          resp_of env bearer path params from rfl]
    rw [if_neg hne, if_neg hrange]
    rcases hcase with hb | hct
    · rw [hb]
      rfl
    · rw [hct]
      simp only [Bool.and_false, Bool.false_eq_true, if_false]
  · intro hb hct
    unfold client_get
    dsimp only
    rw [show env.respond ⟨path, wire_params params, bearer⟩ =
          resp_of env bearer path params from rfl]
    rw [if_neg hne, if_neg hrange, hb, hct]
    rfl

/-- C6 witness: a 200 with a parsed JSON body returns it; a 200 with an
empty body returns the empty object. -/
theorem c6_witness :
    (200 ≤ (resp_of ⟨fun _ => ⟨200, [("content-type", "application/json")],
        Body.jsonVal (Json.obj [("records", Json.arr [])]), ""⟩⟩
        "tok" "/v2/recovery" []).status ∧
      (resp_of ⟨fun _ => ⟨200, [("content-type", "application/json")],
        Body.jsonVal (Json.obj [("records", Json.arr [])]), ""⟩⟩
        "tok" "/v2/recovery" []).status < 300) ∧
    (client_get ⟨fun _ => ⟨200, [("content-type", "application/json")],
        Body.jsonVal (Json.obj [("records", Json.arr [])]), ""⟩⟩
        "tok" "/v2/recovery" []).1 =
      Except.ok (Json.obj [("records", Json.arr [])]) ∧
    (client_get ⟨fun _ => ⟨200, [], Body.empty, ""⟩⟩ "tok" "/v2/recovery" []).1 =
      Except.ok (Json.obj []) := by
  have h := c6_success_body_handling
    (⟨fun _ => ⟨200, [("content-type", "application/json")],
      Body.jsonVal (Json.obj [("records", Json.arr [])]), ""⟩⟩ : Env)
    "tok" "/v2/recovery" [] ⟨by decide, by decide⟩
  have h2 := c6_success_body_handling
    (⟨fun _ => ⟨200, [], Body.empty, ""⟩⟩ : Env)
    "tok" "/v2/recovery" [] ⟨by decide, by decide⟩
  exact ⟨⟨by decide, by decide⟩, h.1 _ rfl (by decide), h2.2.1 (Or.inl rfl)⟩

/-! ## C2 -/

theorem verify_probe_200 (st : VerifierSt) (now : Rat) (tok : String)
    (probe : HttpResp) (hs : probe.status = 200) (hb : probe.body ≠ Body.malformed) :
    ∃ claims, verify_probe st now tok probe =
      ({st with cache := cache_insert st.cache tok (now + st.cache_ttl_s, claims)},
       VerifyOut.valid ⟨tok, st.client_id_hint, st.required_scopes⟩, true) := by
  unfold verify_probe
  rw [if_neg (fun h => h hs)]
  cases hbody : probe.body with
  | empty => exact ⟨Json.obj [], rfl⟩
  | jsonVal j => exact ⟨j, rfl⟩
  | malformed => exact absurd hbody hb

theorem verify_token_probe_result (st : VerifierSt) (t0 : Rat) (tok : String)
    (probe : HttpResp) (hpr : (verify_token st t0 tok probe).2.2 = true) :
    verify_token st t0 tok probe = verify_probe st t0 tok probe := by
  unfold verify_token at hpr ⊢
  cases hc : cache_lookup st.cache tok with
  | none => rfl
  | some ec =>
    obtain ⟨e, c⟩ := ec
    rw [hc] at hpr
    dsimp only at hpr ⊢
    by_cases ht : t0 < e
    · rw [if_pos ht] at hpr
      simp at hpr
    · rw [if_neg ht]

/-- C2: if `verify_token` succeeds at `t0` via an upstream probe that
returned 200, then (a) the result is the validated token with the verifier's
hint and scopes, (b) any verification of the same token before `t0 + TTL`
succeeds from the cache without issuing a probe and leaves the state
untouched, and (c) any verification at or after `t0 + TTL` issues a fresh
probe; moreover a cache hit (no probe) is only ever possible while
`now < the recorded cache-expiry`.  (The constructor default for the TTL is
`default_cache_ttl_s = 300`; the witness instantiates it.) -/
theorem c2_verify_token_cache_ttl :
    (∀ (st : VerifierSt) (t0 : Rat) (tok : String) (probe : HttpResp),
      probe.status = 200 → probe.body ≠ Body.malformed →
      (verify_token st t0 tok probe).2.2 = true →
      (verify_token st t0 tok probe).2.1 =
        VerifyOut.valid ⟨tok, st.client_id_hint, st.required_scopes⟩ ∧
      (∀ (t1 : Rat) (probe2 : HttpResp), t1 < t0 + st.cache_ttl_s →
        verify_token (verify_token st t0 tok probe).1 t1 tok probe2 =
          ((verify_token st t0 tok probe).1,
           VerifyOut.valid ⟨tok, st.client_id_hint, st.required_scopes⟩, false)) ∧
      (∀ (t1 : Rat) (probe2 : HttpResp), t0 + st.cache_ttl_s ≤ t1 →
        (verify_token (verify_token st t0 tok probe).1 t1 tok probe2).2.2 = true)) ∧
    (∀ (st : VerifierSt) (now : Rat) (tok : String) (probe : HttpResp),
      (verify_token st now tok probe).2.2 = false →
      ∃ e c, cache_lookup st.cache tok = some (e, c) ∧ now < e) := by
  constructor
  · intro st t0 tok probe hs hb hpr
    obtain ⟨claims, hform⟩ := verify_probe_200 st t0 tok probe hs hb
    have heq := verify_token_probe_result st t0 tok probe hpr
    rw [heq, hform]
    refine ⟨rfl, ?_, ?_⟩
    · intro t1 probe2 ht1
      unfold verify_token
      dsimp only
      rw [cache_lookup_insert]
      dsimp only
      rw [if_pos ht1]
    · intro t1 probe2 ht1
      unfold verify_token
      dsimp only
      rw [cache_lookup_insert]
      dsimp only
      rw [if_neg (not_lt.mpr ht1)]
      exact verify_probe_probed _ _ _ _
  · intro st now tok probe hpr
    unfold verify_token at hpr
    cases hc : cache_lookup st.cache tok with
    | none =>
      rw [hc] at hpr
      dsimp only at hpr
      have hp := verify_probe_probed st now tok probe
      rw [hpr] at hp
      exact absurd hp (by simp)
    | some ec =>
      obtain ⟨e, c⟩ := ec
      rw [hc] at hpr
      dsimp only at hpr
      by_cases ht : now < e
      · exact ⟨e, c, rfl, ht⟩
      · rw [if_neg ht] at hpr
        have hp := verify_probe_probed st now tok probe
        rw [hpr] at hp
        exact absurd hp (by simp)

/-- C2 witness: with the default TTL of 300, a probe-backed success at time 0
is served from the cache (no probe) at time 299, re-probes at time 300, and a
concrete cache hit is only trusted because `now < expiry`. -/
theorem c2_witness :
    ((⟨200, [], Body.empty, ""⟩ : HttpResp).status = 200 ∧
      (⟨200, [], Body.empty, ""⟩ : HttpResp).body ≠ Body.malformed ∧
      (verify_token ⟨default_cache_ttl_s, [], "whoop", ["read:profile"]⟩ 0 "t"
        ⟨200, [], Body.empty, ""⟩).2.2 = true ∧
      verify_token (verify_token ⟨default_cache_ttl_s, [], "whoop", ["read:profile"]⟩ 0 "t"
          ⟨200, [], Body.empty, ""⟩).1 299 "t" ⟨500, [], Body.empty, ""⟩ =
        ((verify_token ⟨default_cache_ttl_s, [], "whoop", ["read:profile"]⟩ 0 "t"
          ⟨200, [], Body.empty, ""⟩).1,
         VerifyOut.valid ⟨"t", "whoop", ["read:profile"]⟩, false) ∧
      (verify_token (verify_token ⟨default_cache_ttl_s, [], "whoop", ["read:profile"]⟩ 0 "t"
          ⟨200, [], Body.empty, ""⟩).1 300 "t" ⟨200, [], Body.empty, ""⟩).2.2 = true) ∧
    ((verify_token ⟨(300 : Rat), [("t", 300, Json.obj [])], "whoop", []⟩ 100 "t"
        ⟨500, [], Body.empty, ""⟩).2.2 = false ∧
      ∃ e c, cache_lookup [("t", (300 : Rat), Json.obj [])] "t" = some (e, c) ∧
        (100 : Rat) < e) := by
  have h1 := c2_verify_token_cache_ttl.1
    ⟨default_cache_ttl_s, [], "whoop", ["read:profile"]⟩ 0 "t"
    ⟨200, [], Body.empty, ""⟩ rfl (fun hc => Body.noConfusion hc) rfl
  have h2 := c2_verify_token_cache_ttl.2
    ⟨(300 : Rat), [("t", 300, Json.obj [])], "whoop", []⟩ 100 "t"
    ⟨500, [], Body.empty, ""⟩ rfl
  exact ⟨⟨rfl, fun hc => Body.noConfusion hc, rfl,
          h1.2.1 299 ⟨500, [], Body.empty, ""⟩ (by norm_num [default_cache_ttl_s]),
          h1.2.2 300 ⟨200, [], Body.empty, ""⟩ (by norm_num [default_cache_ttl_s])⟩,
         ⟨rfl, h2⟩⟩

/-! ## C3 -/

/-- C3: when the upstream token endpoint answers a refresh with a non-200
status, the route returns the 400 error whose body is exactly
`Token refresh failed: <status> - <body>` (carrying the upstream status and
body) and the persisted token record is returned unchanged — the write path
is never reached. -/
theorem c3_refresh_failure_preserves_tokens (env : OauthEnv) (cid csec : String)
    (tokens rt : Json) (now : Int)
    (hrt : jsonGet tokens "refresh_token" = some rt)
    (hst : (env.post_token [("grant_type", Json.str "refresh_token"),
        ("refresh_token", rt), ("client_id", Json.str cid),
        ("client_secret", Json.str csec)]).status ≠ 200) :
    refresh_token_route env cid csec (some tokens) now =
      (FlaskResp.errorJson
        ("Token refresh failed: " ++
          Nat.repr (env.post_token [("grant_type", Json.str "refresh_token"),
            ("refresh_token", rt), ("client_id", Json.str cid),
            ("client_secret", Json.str csec)]).status ++ " - " ++
          (env.post_token [("grant_type", Json.str "refresh_token"),
            ("refresh_token", rt), ("client_id", Json.str cid),
            ("client_secret", Json.str csec)]).text) 400,
       some tokens) := by
  unfold refresh_token_route
  dsimp only
  rw [hrt]
  dsimp only
  rw [if_neg hst]

/-- C3 witness: a 503 refresh answer yields the 400 error embedding status
and body, with the stored record unchanged. -/
theorem c3_witness :
    jsonGet (Json.obj [("refresh_token", Json.str "r1")]) "refresh_token" =
      some (Json.str "r1") ∧
    ((⟨fun _ => ⟨503, [], Body.empty, "upstream down"⟩⟩ : OauthEnv).post_token
      [("grant_type", Json.str "refresh_token"), ("refresh_token", Json.str "r1"),
       ("client_id", Json.str "cid"), ("client_secret", Json.str "sec")]).status ≠ 200 ∧
    refresh_token_route ⟨fun _ => ⟨503, [], Body.empty, "upstream down"⟩⟩ "cid" "sec"
        (some (Json.obj [("refresh_token", Json.str "r1")])) 0 =
      (FlaskResp.errorJson
        ("Token refresh failed: " ++ Nat.repr 503 ++ " - " ++ "upstream down") 400,
       some (Json.obj [("refresh_token", Json.str "r1")])) := by
  refine ⟨rfl, by decide, ?_⟩
  exact c3_refresh_failure_preserves_tokens _ "cid" "sec" _ (Json.str "r1") 0 rfl (by decide)

/-! ## C8 -/

theorem toDigitsCore_ten_succ (fuel n : Nat) (ds : List Char) :
    Nat.toDigitsCore 10 (fuel + 1) n ds =
      if n / 10 = 0 then Nat.digitChar (n % 10) :: ds
      else Nat.toDigitsCore 10 fuel (n / 10) (Nat.digitChar (n % 10) :: ds) := rfl

theorem repr_four_digits (n : Nat) (h1 : 1000 ≤ n) (h2 : n ≤ 9999) :
    Nat.repr n = year_digits n := by
  obtain ⟨k, hk⟩ : ∃ k, n + 1 = k + 1 + 1 + 1 + 1 := ⟨n - 3, by omega⟩
  show (Nat.toDigits 10 n).asString = year_digits n
  unfold Nat.toDigits
  rw [hk, toDigitsCore_ten_succ, if_neg (by omega : ¬ n / 10 = 0),
      toDigitsCore_ten_succ, if_neg (by omega : ¬ n / 10 / 10 = 0),
      toDigitsCore_ten_succ, if_neg (by omega : ¬ n / 10 / 10 / 10 = 0),
      toDigitsCore_ten_succ, if_pos (by omega : n / 10 / 10 / 10 / 10 = 0)]
  have e1 : n / 10 / 10 / 10 % 10 = n / 1000 := by omega
  have e2 : n / 10 / 10 % 10 = n / 100 % 10 := by omega
  rw [e1, e2]
  rfl

theorem format02d_eq_two_digits (n : Nat) (h : n ≤ 99) :
    format02d n = two_digits n := by
  unfold format02d
  by_cases h10 : n < 10
  · rw [if_pos h10]
    show "0" ++ (Nat.toDigits 10 n).asString = _
    unfold Nat.toDigits
    obtain ⟨k, hk⟩ : ∃ k, n + 1 = k + 1 := ⟨n, rfl⟩
    rw [hk, toDigitsCore_ten_succ, if_pos (by omega : n / 10 = 0)]
    have e1 : (0 : Nat) = n / 10 := by omega
    unfold two_digits
    rw [← e1]
    rfl
  · rw [if_neg h10]
    show (Nat.toDigits 10 n).asString = _
    unfold Nat.toDigits
    obtain ⟨k, hk⟩ : ∃ k, n + 1 = k + 1 + 1 := ⟨n - 1, by omega⟩
    rw [hk, toDigitsCore_ten_succ, if_neg (by omega : ¬ n / 10 = 0),
        toDigitsCore_ten_succ, if_pos (by omega : n / 10 / 10 = 0)]
    have e1 : n / 10 % 10 = n / 10 := by omega
    rw [e1]
    rfl

theorem digitChar_inj_lt_ten : ∀ a, a < 10 → ∀ b, b < 10 →
    Nat.digitChar a = Nat.digitChar b → a = b := by decide

theorem days_in_month_le_31 (y m : Nat) : days_in_month y m ≤ 31 := by
  unfold days_in_month
  split_ifs <;> omega

theorem date_render_inj (a b c a2 b2 c2 : Nat)
    (ha : 1000 ≤ a) (ha2 : a ≤ 9999) (ha3 : 1000 ≤ a2) (ha4 : a2 ≤ 9999)
    (hb : b ≤ 99) (hb2 : b2 ≤ 99) (hc : c ≤ 99) (hc2 : c2 ≤ 99)
    (h : year_digits a ++ "-" ++ two_digits b ++ "-" ++ two_digits c ++ "T23:59:59Z" =
         year_digits a2 ++ "-" ++ two_digits b2 ++ "-" ++ two_digits c2 ++ "T23:59:59Z") :
    a = a2 ∧ b = b2 ∧ c = c2 := by
  have hdata := congrArg String.data h
  simp only [String.data_append] at hdata
  unfold year_digits two_digits at hdata
  dsimp only at hdata
  simp only [List.cons_append, List.nil_append, List.append_assoc,
    List.cons.injEq, and_true] at hdata
  obtain ⟨e1, e2, e3, e4, _, e5, e6, _, e7, e8⟩ := hdata
  have f1 := digitChar_inj_lt_ten _ (by omega) _ (by omega) e1
  have f2 := digitChar_inj_lt_ten _ (by omega) _ (by omega) e2
  have f3 := digitChar_inj_lt_ten _ (by omega) _ (by omega) e3
  have f4 := digitChar_inj_lt_ten _ (by omega) _ (by omega) e4
  have f5 := digitChar_inj_lt_ten _ (by omega) _ (by omega) e5
  have f6 := digitChar_inj_lt_ten _ (by omega) _ (by omega) e6
  have f7 := digitChar_inj_lt_ten _ (by omega) _ (by omega) e7
  have f8 := digitChar_inj_lt_ten _ (by omega) _ (by omega) e8
  refine ⟨by omega, by omega, by omega⟩

/-- C8: whenever the current civil date's day-of-month exceeds the length of
the previous month, the `prev_end` string built by the month branch of
`get_trends` substitutes the current day number unclamped into the previous
month, and the resulting string denotes no valid calendar date (no valid
four-digit-year date renders to it). -/
theorem c8_trends_month_invalid_prev_end (y m d : Nat)
    (hy : 1000 ≤ y) (hy2 : y ≤ 9999) (hm : 1 ≤ m) (hm2 : m ≤ 12)
    (hd : 1 ≤ d) (hdm : d ≤ days_in_month y m)
    (hover : days_in_month (trends_prev_year y m) (trends_prev_month m) < d) :
    (trends_month_windows y m d).2.2 =
      date_end_str (trends_prev_year y m) (trends_prev_month m) d ∧
    ¬ IsValidDateEndStr ((trends_month_windows y m d).2.2) := by
  have hfst : (trends_month_windows y m d).2.2 =
      date_end_str (trends_prev_year y m) (trends_prev_month m) d := rfl
  refine ⟨hfst, ?_⟩
  rw [hfst]
  rintro ⟨y2, m2, d2, hv, heq⟩
  have hv' : 1000 ≤ y2 ∧ y2 ≤ 9999 ∧ 1 ≤ m2 ∧ m2 ≤ 12 ∧ 1 ≤ d2 ∧
      d2 ≤ days_in_month y2 m2 := hv
  obtain ⟨hv1, hv2, hv3, hv4, hv5, hv6⟩ := hv'
  have hm1 : 2 ≤ m := by
    by_contra hcon
    have hmm : m = 1 := by omega
    subst hmm
    have h31 : days_in_month (trends_prev_year y 1) (trends_prev_month 1) = 31 := rfl
    have h31b : days_in_month y 1 = 31 := rfl
    omega
  have hpy : trends_prev_year y m = y := by
    unfold trends_prev_year
    rw [if_pos (by omega : 1 < m)]
  have hpm99 : trends_prev_month m ≤ 99 := by
    unfold trends_prev_month
    split_ifs <;> omega
  have hd99 : d ≤ 99 := by
    have := days_in_month_le_31 y m
    omega
  unfold date_end_str at heq
  rw [repr_four_digits (trends_prev_year y m) (by rw [hpy]; exact hy) (by rw [hpy]; exact hy2),
      repr_four_digits y2 hv1 hv2,
      format02d_eq_two_digits (trends_prev_month m) hpm99,
      format02d_eq_two_digits d hd99,
      format02d_eq_two_digits m2 (by omega),
      format02d_eq_two_digits d2 (by have := days_in_month_le_31 y2 m2; omega)] at heq
  obtain ⟨gy, gm, gd⟩ := date_render_inj (trends_prev_year y m) (trends_prev_month m) d
    y2 m2 d2 (by rw [hpy]; exact hy) (by rw [hpy]; exact hy2) hv1 hv2
    hpm99 (by omega) hd99 (by have := days_in_month_le_31 y2 m2; omega) heq
  rw [← gy, ← gm, ← gd] at hv6
  omega

/-- C8 witness: on 2025-05-31 the previous window end is `2025-04-31`, day 31
of a 30-day month — not a valid calendar date. -/
theorem c8_witness :
    (1000 ≤ 2025 ∧ 2025 ≤ 9999 ∧ 1 ≤ 5 ∧ 5 ≤ 12 ∧ 1 ≤ 31 ∧
      31 ≤ days_in_month 2025 5 ∧
      days_in_month (trends_prev_year 2025 5) (trends_prev_month 5) < 31) ∧
    (trends_month_windows 2025 5 31).2.2 =
      date_end_str (trends_prev_year 2025 5) (trends_prev_month 5) 31 ∧
    ¬ IsValidDateEndStr ((trends_month_windows 2025 5 31).2.2) := by
  have h := c8_trends_month_invalid_prev_end 2025 5 31 (by omega) (by omega)
    (by omega) (by omega) (by omega) (by decide) (by decide)
  exact ⟨⟨by omega, by omega, by omega, by omega, by omega, by decide, by decide⟩,
         h.1, h.2⟩

/-! ## C1 -/

theorem bearer_oauth (tok cid : String) (scopes : List String) (hdr : Option String)
    (htok : tok ≠ "") :
    bearer_for_upstream ⟨some ⟨tok, cid, scopes⟩, hdr⟩ = Except.ok tok := by
  unfold bearer_for_upstream
  dsimp only
  rw [if_neg htok]

theorem client_get_page (pages : List (List Json)) (tok : String)
    (p : List (String × Json)) :
    client_get (pages_env pages) tok "/v2/activity/sleep" p =
      (Except.ok (page_body pages (match objGet (wire_params p) "nextToken" with
        | some (Json.num k) => k.toNat
        | _ => 0)),
       [⟨"/v2/activity/sleep", wire_params p, tok⟩]) := rfl

theorem dispatch_page (pages : List (List Json)) (tok cid : String)
    (scopes : List String) (hdr : Option String) (htok : tok ≠ "")
    (p : List (String × Json)) :
    dispatch_get (pages_env pages) ⟨some ⟨tok, cid, scopes⟩, hdr⟩
        "/v2/activity/sleep" p =
      (Except.ok (page_body pages (match objGet (wire_params p) "nextToken" with
        | some (Json.num k) => k.toNat
        | _ => 0)),
       [⟨"/v2/activity/sleep", wire_params p, tok⟩]) := by
  unfold dispatch_get
  rw [bearer_oauth tok cid scopes hdr htok]
  dsimp only
  rw [client_get_page]
  rfl

theorem objSet_base (s e : String) (v : Json) :
    objSet (act_params s e) "next_token" v = act_params s e ++ [("next_token", v)] := rfl

theorem wire_params_base (s e : String) :
    wire_params (act_params s e) = act_params s e := rfl

theorem wire_params_with_token (s e : String) (i : Nat) :
    wire_params (act_params s e ++ [("next_token", Json.num (Int.ofNat i))]) =
      act_params s e ++ [("nextToken", Json.num (Int.ofNat i))] := rfl

theorem idx_of_token (s e : String) (i : Nat) :
    (match objGet (act_params s e ++ [("nextToken", Json.num (Int.ofNat i))]) "nextToken" with
      | some (Json.num k) => k.toNat
      | _ => 0) = i := rfl

theorem idx_of_base (s e : String) :
    (match objGet (act_params s e) "nextToken" with
      | some (Json.num k) => k.toNat
      | _ => 0) = 0 := rfl

theorem pyTruthy_pos (i : Nat) (h : 1 ≤ i) :
    pyTruthy (Json.num (Int.ofNat i)) = true := by
  simp only [pyTruthy, bne_iff_ne, ne_eq, decide_eq_true_eq, Int.ofNat_eq_coe]
  omega

theorem page_body_records (pages : List (List Json)) (i : Nat) :
    jsonGet (page_body pages i) "records" = some (Json.arr (pages.getD i [])) := rfl

theorem page_body_tok_last (pages : List (List Json)) (i : Nat)
    (h : ¬ i + 1 < pages.length) :
    pyOr (jsonGet (page_body pages i) "next_token")
      (jsonGet (page_body pages i) "nextToken") = none := by
  unfold page_body
  rw [if_neg h]
  rfl

theorem page_body_tok_mid (pages : List (List Json)) (i : Nat)
    (h : i + 1 < pages.length) :
    pyOr (jsonGet (page_body pages i) "next_token")
      (jsonGet (page_body pages i) "nextToken") =
      some (Json.num (Int.ofNat (i + 1))) := by
  unfold page_body
  rw [if_pos h]
  rfl

theorem collect_pages_aux (pages : List (List Json)) (tok cid : String)
    (scopes : List String) (hdr : Option String) (htok : tok ≠ "") (s e : String) :
    ∀ n i, 1 ≤ n → 1 ≤ i → i + n = pages.length →
    collect_paginated_aux
      (fun p => dispatch_get (pages_env pages) ⟨some ⟨tok, cid, scopes⟩, hdr⟩
        "/v2/activity/sleep" p)
      (act_params s e) (some (Json.num (Int.ofNat i))) n =
      some (Except.ok ((pages.drop i).flatten), n,
        (List.range' i n).map (page_call s e tok)) := by
  intro n
  induction n with
  | zero => intro i h1 h2 h3; exact absurd h1 (by omega)
  | succ n ih =>
    intro i h1 h2 h3
    rw [collect_paginated_aux_succ]
    dsimp only
    rw [if_pos (pyTruthy_pos i h2), objSet_base]
    rw [dispatch_page pages tok cid scopes hdr htok]
    dsimp only
    rw [wire_params_with_token, idx_of_token]
    rw [page_body_records]
    dsimp only
    have hpc : page_call s e tok i =
        ⟨"/v2/activity/sleep",
         act_params s e ++ [("nextToken", Json.num (Int.ofNat i))], tok⟩ := by
      unfold page_call
      rw [if_neg (by omega : ¬ i = 0)]
    by_cases hmid : i + 1 < pages.length
    · rw [page_body_tok_mid pages i hmid]
      dsimp only
      rw [if_pos (pyTruthy_pos (i + 1) (by omega))]
      rw [ih (i + 1) (by omega) (by omega) (by omega)]
      dsimp only
      have hlt : i < pages.length := by omega
      rw [List.drop_eq_getElem_cons hlt, List.flatten_cons,
          List.getD_eq_getElem _ _ hlt]
      rw [List.range'_succ, List.map_cons, hpc]
      rfl
    · have hn0 : n = 0 := by omega
      subst hn0
      rw [page_body_tok_last pages i hmid]
      dsimp only
      have hlt : i < pages.length := by omega
      have hdrop : pages.drop i = [pages[i]] := by
        rw [List.drop_eq_getElem_cons hlt, List.drop_eq_nil_of_le (by omega)]
      rw [hdrop, List.flatten_cons, List.flatten_nil, List.append_nil,
          List.getD_eq_getElem _ _ hlt]
      have hr1 : List.range' i 1 = [i] := rfl
      rw [hr1, List.map_cons, hpc]
      rfl

theorem collect_pages (pages : List (List Json)) (hne : pages ≠ [])
    (tok cid : String) (scopes : List String) (hdr : Option String)
    (htok : tok ≠ "") (s e : String) :
    collect_paginated
      (fun p => dispatch_get (pages_env pages) ⟨some ⟨tok, cid, scopes⟩, hdr⟩
        "/v2/activity/sleep" p)
      (act_params s e) pages.length =
      some (Except.ok pages.flatten, pages.length,
        pages_log s e tok pages.length) := by
  cases pages with
  | nil => exact absurd rfl hne
  | cons p0 rest =>
    have hlen : (p0 :: rest).length = rest.length + 1 := rfl
    show collect_paginated_aux _ _ none (rest.length + 1) = _
    rw [collect_paginated_aux_succ]
    dsimp only
    rw [dispatch_page (p0 :: rest) tok cid scopes hdr htok]
    dsimp only
    rw [wire_params_base, idx_of_base]
    rw [page_body_records]
    dsimp only
    by_cases hmid : 0 + 1 < (p0 :: rest).length
    · rw [page_body_tok_mid _ 0 hmid]
      dsimp only
      rw [if_pos (pyTruthy_pos 1 (by omega))]
      have hrl : 1 ≤ rest.length := by omega
      rw [collect_pages_aux (p0 :: rest) tok cid scopes hdr htok s e
        rest.length 1 hrl (by omega) (by omega)]
      dsimp only
      unfold pages_log
      rw [hlen, List.range_eq_range', List.range'_succ, List.map_cons]
      rfl
    · have h0 : rest.length = 0 := by omega
      have hre : rest = [] := List.eq_nil_of_length_eq_zero h0
      subst hre
      rw [page_body_tok_last _ 0 hmid]
      dsimp only
      rw [List.flatten_cons, List.flatten_nil, List.append_nil]
      rfl

theorem section_step_run (env : Env) (ctx : ReqCtx) (cond : Bool) (path key : String)
    (base : List (String × Json)) (fuel : Nat) (res : List (String × Json))
    (lg : List UpCall) (items : List Json) (n : Nat) (lg2 : List UpCall)
    (hcond : cond = true)
    (hcollect : collect_paginated (fun p => dispatch_get env ctx path p) base fuel =
      some (Except.ok items, n, lg2)) :
    section_step env ctx cond path key base fuel (some (Except.ok res, lg)) =
      some (Except.ok (res ++ [(key, Json.arr items)]), lg ++ lg2) := by
  subst hcond
  unfold section_step
  dsimp only
  rw [if_pos rfl, hcollect]

theorem section_step_skip (env : Env) (ctx : ReqCtx) (cond : Bool) (path key : String)
    (base : List (String × Json)) (fuel : Nat) (res : List (String × Json))
    (lg : List UpCall) (hcond : cond = false) :
    section_step env ctx cond path key base fuel (some (Except.ok res, lg)) =
      some (Except.ok res, lg) := by
  subst hcond
  unfold section_step
  dsimp only
  rw [if_neg Bool.false_ne_true]

/-- C1: `get_activities(activity_type="sleep", days_back=3)` with no custom
dates computes the window `start = days_ago(3)`, `end = isoformat_utc(now)`,
queries only the sleep endpoint starting from exactly
`{start, end, limit: 25}`, follows pagination tokens until the vendor
returns none (one call per page), and returns exactly
`{"window": {start, end}, "sleep": [all records in upstream order]}` with no
other keys; every upstream call is to the sleep path with the resolved
bearer. -/
theorem c1_get_activities_sleep_flow (pages : List (List Json)) (hne : pages ≠ [])
    (now : Int) (tok cid : String) (scopes : List String) (hdr : Option String)
    (htok : tok ≠ "") :
    get_activities (pages_env pages) ⟨some ⟨tok, cid, scopes⟩, hdr⟩ now "sleep"
        (some 3) none none pages.length =
      some (Except.ok
        [("window", Json.obj [("start", Json.str (days_ago now 3)),
                              ("end", Json.str (isoformat_utc now))]),
         ("sleep", Json.arr pages.flatten)],
        pages_log (days_ago now 3) (isoformat_utc now) tok pages.length) ∧
    (pages_log (days_ago now 3) (isoformat_utc now) tok pages.length).length =
      pages.length ∧
    (pages_log (days_ago now 3) (isoformat_utc now) tok pages.length).head? =
      some ⟨"/v2/activity/sleep",
        act_params (days_ago now 3) (isoformat_utc now), tok⟩ ∧
    ∀ c ∈ pages_log (days_ago now 3) (isoformat_utc now) tok pages.length,
      c.path = "/v2/activity/sleep" ∧ c.bearer = tok := by
  have hs := collect_pages pages hne tok cid scopes hdr htok
    (days_ago now 3) (isoformat_utc now)
  refine ⟨?_, ?_, ?_, ?_⟩
  · unfold get_activities
    have hw : activities_window now (some 3) none none =
        (days_ago now 3, isoformat_utc now) := rfl
    rw [hw]
    dsimp only
    rw [section_step_run _ _ _ _ _ _ _ _ _ _ _ _ (by decide) hs]
    rw [section_step_skip _ _ _ _ _ _ _ _ _ (by decide)]
    rw [section_step_skip _ _ _ _ _ _ _ _ _ (by decide)]
    rw [section_step_skip _ _ _ _ _ _ _ _ _ (by decide)]
    rfl
  · unfold pages_log
    simp [List.length_map, List.length_range]
  · cases pages with
    | nil => exact absurd rfl hne
    | cons p0 rest =>
      unfold pages_log
      have hlen : (p0 :: rest).length = rest.length + 1 := rfl
      rw [hlen, List.range_eq_range', List.range'_succ, List.map_cons]
      rfl
  · intro c hc
    unfold pages_log at hc
    rw [List.mem_map] at hc
    obtain ⟨i, hi, rfl⟩ := hc
    by_cases h0 : i = 0
    · unfold page_call
      rw [if_pos h0]
      exact ⟨rfl, rfl⟩
    · unfold page_call
      rw [if_neg h0]
      exact ⟨rfl, rfl⟩

/-- C1 witness: two pages of one sleep record each, at `now = 0` with the
OAuth token `tk`. -/
theorem c1_witness :
    ([[Json.str "a"], [Json.str "b"]] : List (List Json)) ≠ [] ∧
    ("tk" : String) ≠ "" ∧
    get_activities (pages_env [[Json.str "a"], [Json.str "b"]])
        ⟨some ⟨"tk", "cid", []⟩, none⟩ 0 "sleep" (some 3) none none
        ([[Json.str "a"], [Json.str "b"]] : List (List Json)).length =
      some (Except.ok
        [("window", Json.obj [("start", Json.str (days_ago 0 3)),
                              ("end", Json.str (isoformat_utc 0))]),
         ("sleep", Json.arr ([[Json.str "a"], [Json.str "b"]] : List (List Json)).flatten)],
        pages_log (days_ago 0 3) (isoformat_utc 0) "tk"
          ([[Json.str "a"], [Json.str "b"]] : List (List Json)).length) ∧
    (pages_log (days_ago 0 3) (isoformat_utc 0) "tk"
        ([[Json.str "a"], [Json.str "b"]] : List (List Json)).length).length = 2 ∧
    (pages_log (days_ago 0 3) (isoformat_utc 0) "tk"
        ([[Json.str "a"], [Json.str "b"]] : List (List Json)).length).head? =
      some ⟨"/v2/activity/sleep", act_params (days_ago 0 3) (isoformat_utc 0), "tk"⟩ := by
  have h := c1_get_activities_sleep_flow [[Json.str "a"], [Json.str "b"]]
    (List.cons_ne_nil _ _) 0 "tk" "cid" [] none (by decide)
  exact ⟨List.cons_ne_nil _ _, by decide, h.1, h.2.1, h.2.2.1⟩
